import Mathlib

/-!
Verification of the Resource Accounting & Placement Engine of the ODP-DC
repository.  The Python sources under `backend/app` and
`vm-provisioning/api` are shallowly embedded: SQLAlchemy rows become Lean
structures, database tables become lists inside an explicit `EngineState`,
and each task or route handler becomes a pure state-transformer.  Machine
integers are modelled as `Int` (the quantities involved are small counts of
cores, gigabytes and IOPS), and fallible handlers return `Except`.
-/

namespace ODPDC

/-- Lifecycle status of a baremetal server
(`backend/app/models/baremetal.py`, `status` enum). -/
inductive BMStatus
  | active
  | inactive
  | maintenance
  | failed
deriving DecidableEq, Repr

/-- Lifecycle status of a VM (`backend/app/models/vm.py`, check constraint on
`status`). -/
inductive VMStatus
  | creating
  | running
  | stopped
  | failed
  | deleting
deriving DecidableEq, Repr

/-- A row of the `baremetals` table (`backend/app/models/baremetal.py`).
The model declares `cpu_cores` and `memory_gb` but **no** `storage_gb` and
**no** `iops` column: those two columns exist only on
`BaremetalStorageMount`.  Timestamps are abstract ticks. -/
structure Baremetal where
  id : Nat
  hostname : String
  ip_address : String
  cpu_cores : Int
  memory_gb : Int
  status : BMStatus
  last_health_check : Option Nat
deriving DecidableEq, Repr

/-- Python attribute lookup `bm.storage_gb`.  `models/baremetal.py` declares
no such column on `Baremetal` (it lives on `BaremetalStorageMount`), so the
lookup raises `AttributeError`; we model the lookup as an `Option Int` that
is always `none`. -/
def Baremetal.storage_gb (_ : Baremetal) : Option Int := none

/-- Python attribute lookup `bm.iops`; like `Baremetal.storage_gb` the
column does not exist on the `Baremetal` model, so the lookup raises
`AttributeError`, modelled as `none`. -/
def Baremetal.iops (_ : Baremetal) : Option Int := none

/-- A row of the `vms` table (`backend/app/models/vm.py`). -/
structure VM where
  id : Nat
  hostname : String
  ip_address : Option String
  baremetal_id : Option Nat
  image_id : Nat
  cpu_cores : Int
  memory_mb : Int
  status : VMStatus
  created_by : Nat
deriving DecidableEq, Repr

/-- A row of the `vm_images` table, restricted to the fields the embedded
handlers read (`backend/app/models/vm.py`). -/
structure VMImage where
  id : Nat
  is_active : Bool
deriving DecidableEq, Repr

/-- A row of the `vm_storage_mounts` table (`backend/app/models/vm.py`). -/
structure VMStorageMount where
  vm_id : Nat
  mount_point : String
  storage_gb : Int
  storage_type : String
deriving DecidableEq, Repr

/-- The single `resource_pool` row (`backend/app/models/monitoring.py`,
`ResourcePool`): total and available CPU/memory/storage/IOPS counters. -/
structure ResourcePool where
  total_cpu_cores : Int
  total_memory_gb : Int
  total_storage_gb : Int
  total_iops : Int
  available_cpu_cores : Int
  available_memory_gb : Int
  available_storage_gb : Int
  available_iops : Int
deriving DecidableEq, Repr

/-- A row of the `alerts` table (`backend/app/models/monitoring.py`,
`Alert`).  `is_resolved` defaults to `false` on creation. -/
structure Alert where
  id : Nat
  resource_type : String
  resource_id : Nat
  alert_type : String
  severity : String
  message : String
  is_resolved : Bool
deriving DecidableEq, Repr

/-- A row of the `notifications` table (`backend/app/models/monitoring.py`,
`Notification`). -/
structure Notification where
  alert_id : Nat
  channel : String
  status : String
  error_message : Option String
deriving DecidableEq, Repr

/-- The durable state the engine mutates: the baremetal, VM, image, mount,
alert and notification tables plus the (at most one) resource-pool row. -/
structure EngineState where
  baremetals : List Baremetal
  vms : List VM
  images : List VMImage
  vm_mounts : List VMStorageMount
  pool : Option ResourcePool
  alerts : List Alert
  notifications : List Notification
deriving DecidableEq, Repr

/-- Python `sum(f(bm) for bm in l)` where the attribute lookup `f` can raise
(`none`): the empty sum is `0` and any failing lookup aborts the whole
sum. -/
def sumAttr (f : Baremetal → Option Int) : List Baremetal → Option Int
  | [] => some 0
  | bm :: rest =>
    match f bm with
    | none => none
    | some v => (sumAttr f rest).map (fun t => v + t)

/-- `update_resource_pool` (`backend/app/tasks/baremetal_tasks.py`,
lines 14-58).  It filters the baremetals to `status == 'active'`, sums
`cpu_cores`, `memory_gb`, `storage_gb` and `iops` over them, hardcodes every
`used_*` quantity to `0` (the source comment reads "simplified - in real
implementation, you'd query VM usage from the database"), and writes the
pool with `available = total - used`.  Because `bm.storage_gb` raises
`AttributeError` whenever at least one active baremetal exists, the
surrounding `except` clause rolls the transaction back and the state is
returned unchanged in that case. -/
def update_resource_pool (s : EngineState) : EngineState :=
  let baremetals := s.baremetals.filter (fun bm => decide (bm.status = BMStatus.active))
  let total_cpu := (baremetals.map Baremetal.cpu_cores).sum
  let total_memory := (baremetals.map Baremetal.memory_gb).sum
  match sumAttr Baremetal.storage_gb baremetals, sumAttr Baremetal.iops baremetals with
  | some total_storage, some total_iops =>
    let used_cpu : Int := 0
    let used_memory : Int := 0
    let used_storage : Int := 0
    let used_iops : Int := 0
    let newPool : ResourcePool :=
      { total_cpu_cores := total_cpu
        total_memory_gb := total_memory
        total_storage_gb := total_storage
        total_iops := total_iops
        available_cpu_cores := total_cpu - used_cpu
        available_memory_gb := total_memory - used_memory
        available_storage_gb := total_storage - used_storage
        available_iops := total_iops - used_iops }
    { s with pool := some newPool }
  | _, _ => s

/-- Ledger recompute as §4.1 of the spec words it, for the CPU dimension
(reference definition for comparison with `update_resource_pool`): used
CPU is the sum of the cores requested by VMs whose status is not in
{failed, deleting}, and the available value is total minus used, floored
at zero. -/
def spec_used_cpu (vms : List VM) : Int :=
  ((vms.filter (fun v =>
    decide (v.status ≠ VMStatus.failed ∧ v.status ≠ VMStatus.deleting))).map
      VM.cpu_cores).sum

/-- Ledger recompute as §4.1 of the spec words it, memory dimension (in GB;
a VM requesting `memory_mb` megabytes holds `memory_mb / 1024` GB, exact on
the inputs considered here). -/
def spec_used_memory_gb (vms : List VM) : Int :=
  ((vms.filter (fun v =>
    decide (v.status ≠ VMStatus.failed ∧ v.status ≠ VMStatus.deleting))).map
      (fun v => v.memory_mb / 1024)).sum

/-- Spec-worded available CPU: total over active baremetals minus used,
floored at zero (§4.1). -/
def spec_available_cpu (baremetals : List Baremetal) (vms : List VM) : Int :=
  max 0 (((baremetals.filter (fun bm => decide (bm.status = BMStatus.active))).map
    Baremetal.cpu_cores).sum - spec_used_cpu vms)

/-- Spec-worded available memory in GB: total over active baremetals minus
used, floored at zero (§4.1). -/
def spec_available_memory_gb (baremetals : List Baremetal) (vms : List VM) : Int :=
  max 0 (((baremetals.filter (fun bm => decide (bm.status = BMStatus.active))).map
    Baremetal.memory_gb).sum - spec_used_memory_gb vms)

/-- Request body of `POST /vms/` (`backend/app/schemas/vm.py`, `VMCreate`).
`storage_mounts` carries the mount rows to create alongside the VM. -/
structure VMCreate where
  hostname : String
  ip_address : Option String
  image_id : Nat
  cpu_cores : Int
  memory_mb : Int
  storage_mounts : List (String × Int × String)
deriving DecidableEq, Repr

/-- Request body of `PUT /vms/{id}` (`backend/app/schemas/vm.py`,
`VMUpdate`): every field optional, and notably **no** `baremetal_id`
field. -/
structure VMUpdate where
  hostname : Option String
  ip_address : Option String
  cpu_cores : Option Int
  memory_mb : Option Int
  status : Option VMStatus
deriving DecidableEq, Repr

/-- The authenticated user, restricted to the fields the VM routes read
(`backend/app/models/user.py` via `get_current_active_user`). -/
structure UserT where
  id : Nat
  role : String
deriving DecidableEq, Repr

/-- Errors raised by `create_vm` (`backend/app/routers/vms.py`), one
constructor per `HTTPException` in source order.  `insufficientCpu` and
`insufficientMemory` carry detail "Insufficient CPU cores available" /
"Insufficient memory available" (the two `InsufficientCapacity` cases of
§7); `noSuitableBaremetal` carries "No suitable baremetal server
available" (`NoEligibleNode`). -/
inductive VmErr
  | invalidIpFormat
  | hostnameExists
  | ipExists
  | imageNotFound
  | poolNotInitialized
  | insufficientCpu
  | insufficientMemory
  | noSuitableBaremetal
deriving DecidableEq, Repr

/-- The per-node eligibility filter of `create_vm`
(`backend/app/routers/vms.py`, lines 79-83): `status == 'active'`,
`cpu_cores >= vm.cpu_cores` and `memory_gb >= vm.memory_mb / 1024`.  The
Python division is float division by the power of two 1024 and so exact;
`memory_gb >= memory_mb / 1024` is rendered as
`1024 * memory_gb >= memory_mb`. -/
def eligible_baremetal (req : VMCreate) (bm : Baremetal) : Bool :=
  decide (bm.status = BMStatus.active) &&
  decide (req.cpu_cores ≤ bm.cpu_cores) &&
  decide (req.memory_mb ≤ 1024 * bm.memory_gb)

/-- The pre-pool validations of `create_vm` (`backend/app/routers/vms.py`,
lines 32-59), in source order: IP-format validation (the format check
`ipaddress.ip_address` is a Python-stdlib collaborator, abstracted as the
`valid_ip` argument), hostname uniqueness, IP uniqueness, image lookup.
Returns the first failure, `none` when all pass; these checks read only
the VM and image tables, never the baremetals or the pool. -/
def vm_precheck (valid_ip : String → Bool) (s : EngineState)
    (req : VMCreate) : Option VmErr :=
  let ipOk := match req.ip_address with
    | none => true
    | some ip => valid_ip ip
  if ipOk = false then
    some VmErr.invalidIpFormat
  else if s.vms.any (fun v => decide (v.hostname = req.hostname)) then
    some VmErr.hostnameExists
  else if (match req.ip_address with
      | none => false
      | some ip => s.vms.any (fun v => decide (v.ip_address = some ip))) then
    some VmErr.ipExists
  else if (s.images.find? (fun i => decide (i.id = req.image_id))).isNone then
    some VmErr.imageNotFound
  else
    none

/-- `create_vm` (`backend/app/routers/vms.py`, lines 26-123).  Checks run in
source order: the `vm_precheck` validations, then resource-pool presence,
pool CPU then memory availability, and finally the first baremetal
satisfying `eligible_baremetal` (an unordered `.first()` over the filtered
query, i.e. the head of the stored order).  On success the new VM row (with
the database id `new_id`, status defaulting to `creating`) and its mount
rows are appended; the enqueued `create_vm_task` and `update_resource_pool`
celery jobs run asynchronously and are not part of this transition. -/
def create_vm (valid_ip : String → Bool) (s : EngineState) (req : VMCreate)
    (new_id : Nat) (user : UserT) : Except VmErr (EngineState × VM) :=
  match vm_precheck valid_ip s req with
  | some e => Except.error e
  | none =>
      match s.pool with
      | none => Except.error VmErr.poolNotInitialized
      | some pool =>
        if pool.available_cpu_cores < req.cpu_cores then
          Except.error VmErr.insufficientCpu
        else if 1024 * pool.available_memory_gb < req.memory_mb then
          Except.error VmErr.insufficientMemory
        else
          match s.baremetals.find? (eligible_baremetal req) with
          | none => Except.error VmErr.noSuitableBaremetal
          | some bm =>
            let db_vm : VM :=
              { id := new_id
                hostname := req.hostname
                ip_address := req.ip_address
                baremetal_id := some bm.id
                image_id := req.image_id
                cpu_cores := req.cpu_cores
                memory_mb := req.memory_mb
                status := VMStatus.creating
                created_by := user.id }
            let mounts := req.storage_mounts.map (fun m =>
              { vm_id := new_id
                mount_point := m.1
                storage_gb := m.2.1
                storage_type := m.2.2 : VMStorageMount })
            Except.ok
              ({ s with
                  vms := s.vms ++ [db_vm]
                  vm_mounts := s.vm_mounts ++ mounts }, db_vm)

/-- Errors raised by `update_vm` (`backend/app/routers/vms.py`,
lines 146-186). -/
inductive UpdErr
  | notFound
  | forbidden
  | invalidIpFormat
deriving DecidableEq, Repr

/-- The field updates of `update_vm` applied to one VM row
(`backend/app/routers/vms.py`, lines 164-181): every provided field is
written unconditionally; there is no re-check of the new `cpu_cores` /
`memory_mb` against the assigned baremetal, and `baremetal_id` is not among
the updatable fields. -/
def apply_vm_update (u : VMUpdate) (v : VM) : VM :=
  { v with
      hostname := u.hostname.getD v.hostname
      ip_address := match u.ip_address with
        | some ip => some ip
        | none => v.ip_address
      cpu_cores := u.cpu_cores.getD v.cpu_cores
      memory_mb := u.memory_mb.getD v.memory_mb
      status := u.status.getD v.status }

/-- `update_vm` (`backend/app/routers/vms.py`, lines 146-186): look the VM
up, enforce the owner-or-admin permission, validate a provided IP, then
apply `apply_vm_update` and commit.  A raised `HTTPException` aborts before
the commit, leaving the state unchanged. -/
def update_vm (valid_ip : String → Bool) (s : EngineState) (vm_id : Nat)
    (u : VMUpdate) (user : UserT) : Except UpdErr EngineState :=
  match s.vms.find? (fun v => decide (v.id = vm_id)) with
  | none => Except.error UpdErr.notFound
  | some vm =>
    if decide (user.role ≠ "admin") && decide (vm.created_by ≠ user.id) then
      Except.error UpdErr.forbidden
    else
      let ipOk := match u.ip_address with
        | none => true
        | some ip => valid_ip ip
      if ipOk = false then
        Except.error UpdErr.invalidIpFormat
      else
        Except.ok { s with vms := s.vms.map (fun v =>
          if decide (v.id = vm_id) then apply_vm_update u v else v) }

/-- Number of VMs currently assigned to a baremetal; the "current load" of
the spec's §4.2 tie-break (reference definition written from the spec, for
comparison with the selection `create_vm` performs). -/
def bm_load (vms : List VM) (bm : Baremetal) : Nat :=
  (vms.filter (fun v => decide (v.baremetal_id = some bm.id))).length

/-- The Placement Selector as §4.2 of the spec words it (reference
definition for comparison with `create_vm`): among the eligible baremetals,
pick the one with lowest current load, breaking ties by lowest id. -/
def spec_select (baremetals : List Baremetal) (vms : List VM)
    (req : VMCreate) : Option Nat :=
  let survivors := baremetals.filter (eligible_baremetal req)
  let better := fun (a b : Baremetal) =>
    bm_load vms a < bm_load vms b ∨ (bm_load vms a = bm_load vms b ∧ a.id < b.id)
  (survivors.foldl (fun best bm =>
    match best with
    | none => some bm
    | some cur => if decide (better bm cur) then some bm else some cur) none).map
      Baremetal.id

/-- The alert row `check_baremetal_health` creates for an unresponsive
baremetal (`backend/app/tasks/baremetal_tasks.py`, lines 79-88):
resource type `baremetal`, alert type `server_down`, severity `critical`,
`is_resolved` defaulting to `false`. -/
def server_down_alert (aid : Nat) (bm : Baremetal) : Alert :=
  { id := aid
    resource_type := "baremetal"
    resource_id := bm.id
    alert_type := "server_down"
    severity := "critical"
    message := "Baremetal server " ++ bm.hostname ++ " is not responding"
    is_resolved := false }

/-- Effect of one iteration of the `check_baremetal_health` loop on the
probed row (`backend/app/tasks/baremetal_tasks.py`, lines 67-98): the loop
ranges over baremetals with `status == 'active'` only, sets `status` to
`failed` on an unhealthy probe, and merely refreshes `last_health_check`
on a healthy one.  `healthy` abstracts the network probe
`check_server_health(ip)` (a socket connect, external to the store). -/
def bm_probe_step (healthy : String → Bool) (now : Nat) (bm : Baremetal) :
    Baremetal :=
  if bm.status = BMStatus.active then
    if healthy bm.ip_address then { bm with last_health_check := some now }
    else { bm with status := BMStatus.failed }
  else bm

/-- The alert rows one `check_baremetal_health` sweep appends, in loop
order, with fresh ids drawn from `naid` upward (the source draws UUIDs;
any injective supply is faithful). -/
def bm_sweep_alerts (healthy : String → Bool) (naid : Nat) :
    List Baremetal → List Alert
  | [] => []
  | bm :: rest =>
    if decide (bm.status = BMStatus.active) && !healthy bm.ip_address then
      server_down_alert naid bm :: bm_sweep_alerts healthy (naid + 1) rest
    else
      bm_sweep_alerts healthy naid rest

/-- `check_baremetal_health` (`backend/app/tasks/baremetal_tasks.py`,
lines 60-106).  The loop commits each row mutation and alert insertion as
it goes; its net effect on the state is the row-wise `bm_probe_step`
together with the appended `bm_sweep_alerts`.  Baremetals whose status is
not `active` are outside the query and untouched. -/
def check_baremetal_health (healthy : String → Bool) (now naid : Nat)
    (s : EngineState) : EngineState :=
  { s with
      baremetals := s.baremetals.map (bm_probe_step healthy now)
      alerts := s.alerts ++ bm_sweep_alerts healthy naid s.baremetals }

/-- `check_vm_health_status` (`backend/app/tasks/vm_tasks.py`,
lines 190-199): the VM health probe unconditionally reports healthy
("For now, just return True (simplified)"). -/
def check_vm_health_status (_ : VM) : Bool := true

/-- The alert row `check_vm_health` would create for an unresponsive VM
(`backend/app/tasks/vm_tasks.py`, lines 166-174): alert type `vm_down`,
severity `high`. -/
def vm_down_alert (aid : Nat) (v : VM) : Alert :=
  { id := aid
    resource_type := "vm"
    resource_id := v.id
    alert_type := "vm_down"
    severity := "high"
    message := "VM " ++ v.hostname ++ " is not responding"
    is_resolved := false }

/-- The alert rows one `check_vm_health` sweep appends. -/
def vm_sweep_alerts (naid : Nat) : List VM → List Alert
  | [] => []
  | v :: rest =>
    if decide (v.status = VMStatus.running) && !check_vm_health_status v then
      vm_down_alert naid v :: vm_sweep_alerts (naid + 1) rest
    else
      vm_sweep_alerts naid rest

/-- `check_vm_health` (`backend/app/tasks/vm_tasks.py`, lines 147-188): the
loop ranges over VMs with `status == 'running'`, marks a VM `failed` and
raises a `vm_down` alert when `check_vm_health_status` reports unhealthy. -/
def check_vm_health (naid : Nat) (s : EngineState) : EngineState :=
  { s with
      vms := s.vms.map (fun v =>
        if decide (v.status = VMStatus.running) && !check_vm_health_status v then
          { v with status := VMStatus.failed }
        else v)
      alerts := s.alerts ++ vm_sweep_alerts naid s.vms }

/-- Channel configuration (`backend/app/core/config.py` settings read by
`send_alert_notification`): a channel is configured when its endpoint and
credentials are non-empty. -/
structure ChannelConfig where
  slack_webhook_url : Option String
  jira_url : Option String
  jira_username : Option String
  jira_api_token : Option String
deriving DecidableEq, Repr

/-- Result of one channel-specific send (the `httpx` post, an external
collaborator, §6): the success status code (200 for Slack, 201 for JIRA),
a non-success HTTP response, or a raised exception. -/
inductive SendOutcome
  | ok
  | httpErr (code : Nat) (body : String)
  | exn (msg : String)
deriving DecidableEq, Repr

/-- The Notification row created, in status `pending`, before a channel
send is attempted (`backend/app/tasks/notification_tasks.py`, lines 49-55
and 135-141). -/
def pending_row (alert : Alert) (channel : String) : Notification :=
  { alert_id := alert.id
    channel := channel
    status := "pending"
    error_message := none }

/-- The text of the `NameError` the success path raises: `func` is
referenced at `notification_tasks.py` lines 107 and 176
(`db.query(func.now()).scalar()`) but never imported in that module. -/
def func_name_error_msg : String := "name \x27func\x27 is not defined"

/-- Finalisation of a Notification row after the send
(`backend/app/tasks/notification_tasks.py`, lines 105-120 and 174-189).
On the success status code the task sets `status = 'sent'` and then
evaluates `notification.sent_at = db.query(func.now()).scalar()` — but
`func` is never imported in the module, so this raises `NameError` before
any commit; the surrounding `except` clause overwrites the row to
`failed` with `str(e)` and commits.  A committed `sent` row is therefore
unreachable: every attempt commits `failed` — with the `NameError` text
on the success path, the HTTP code and body on a non-success response,
and the exception text otherwise. -/
def finalize_row (row : Notification) (outcome : SendOutcome) : Notification :=
  match outcome with
  | SendOutcome.ok =>
    { row with status := "failed", error_message := some func_name_error_msg }
  | SendOutcome.httpErr c body =>
    { row with
        status := "failed"
        error_message := some ("HTTP " ++ toString c ++ ": " ++ body) }
  | SendOutcome.exn m =>
    { row with status := "failed", error_message := some m }

/-- `send_slack_notification` (`backend/app/tasks/notification_tasks.py`,
lines 38-122): look the alert up; if present, commit a `pending` row, then
perform the send and commit the row finalised per `finalize_row` (never
`sent`, see there).  The body as written also uses `await` and
`async with` inside a plain `def` — a Python `SyntaxError` that prevents
the module from importing at all; the embedding follows the function's
own control flow as written. -/
def send_slack_notification (s : EngineState) (alert_id : Nat)
    (outcome : SendOutcome) : EngineState :=
  match s.alerts.find? (fun a => decide (a.id = alert_id)) with
  | none => s
  | some alert =>
    { s with notifications :=
        s.notifications ++ [finalize_row (pending_row alert "slack") outcome] }

/-- `send_jira_notification` (`backend/app/tasks/notification_tasks.py`,
lines 124-191): same shape as the Slack task — including the unimported
`func` on the success path (line 176) and the invalid `await`/`async
with` inside a plain `def` — with channel `jira` and success code 201. -/
def send_jira_notification (s : EngineState) (alert_id : Nat)
    (outcome : SendOutcome) : EngineState :=
  match s.alerts.find? (fun a => decide (a.id = alert_id)) with
  | none => s
  | some alert =>
    { s with notifications :=
        s.notifications ++ [finalize_row (pending_row alert "jira") outcome] }

/-- `send_alert_notification` (`backend/app/tasks/notification_tasks.py`,
lines 15-36): fan the alert out to each configured channel by enqueueing
the channel task; an unconfigured channel is skipped.  The two channel
tasks are independent celery jobs; their combined effect on the store is
their composition, each driven solely by its own send outcome. -/
def send_alert_notification (cfg : ChannelConfig) (s : EngineState)
    (alert_id : Nat) (slack_outcome jira_outcome : SendOutcome) : EngineState :=
  match s.alerts.find? (fun a => decide (a.id = alert_id)) with
  | none => s
  | some _ =>
    let s1 := if cfg.slack_webhook_url.isSome then
        send_slack_notification s alert_id slack_outcome
      else s
    if cfg.jira_url.isSome && cfg.jira_username.isSome &&
        cfg.jira_api_token.isSome then
      send_jira_notification s1 alert_id jira_outcome
    else s1

/-- The `vm_storage` tier of the Storage Allocator
(`vm-provisioning/api/storage_manager.py`): a capacity limit and the
current usage.  Modelled from the spec for the usage side: the source
derives `used_gb` with `du` over the tier directory and provisions the
backing volume with `qemu-img create` (the backing-store provisioner of
§6, external to this core); creating a volume of `size_gb` GB adds
`size_gb` to the tier's usage. -/
structure StorageTierState where
  limit_gb : Int
  used_gb : Int
deriving DecidableEq, Repr

/-- `available_gb` as `get_storage_usage` reports it for a tier
(`storage_manager.py`, line 123): `limit_gb - used_gb`. -/
def tier_available_gb (t : StorageTierState) : Int := t.limit_gb - t.used_gb

/-- `StorageManager.allocate_vm_storage` (`storage_manager.py`,
lines 154-185): fail when `available_gb < size_gb`, otherwise provision
the backing volume (spec-modelled as adding `size_gb` to the tier usage)
and return the disk path. -/
def allocate_vm_storage (t : StorageTierState) (vm_id : String)
    (size_gb : Int) : StorageTierState × Bool × String :=
  if tier_available_gb t < size_gb then
    (t, false,
      "Insufficient VM storage. Available: " ++ toString (tier_available_gb t)
        ++ "GB, Required: " ++ toString size_gb ++ "GB")
  else
    ({ t with used_gb := t.used_gb + size_gb }, true,
      "/shared-storage/vm-storage/instances/" ++ vm_id ++ "/disk.qcow2")

/-! ### Invariants and fixtures -/

/-- `available ≤ total` on every resource dimension of a pool snapshot. -/
def pool_ok (p : ResourcePool) : Prop :=
  p.available_cpu_cores ≤ p.total_cpu_cores ∧
  p.available_memory_gb ≤ p.total_memory_gb ∧
  p.available_storage_gb ≤ p.total_storage_gb ∧
  p.available_iops ≤ p.total_iops

/-- The pool row of a state, when present, satisfies `pool_ok`. -/
def pool_inv (s : EngineState) : Prop :=
  ∀ p, s.pool = some p → pool_ok p

/-- The `server_down` alert rows held for a given baremetal id. -/
def alerts_for (bm_id : Nat) (alerts : List Alert) : List Alert :=
  alerts.filter (fun a =>
    decide (a.resource_type = "baremetal") && decide (a.resource_id = bm_id) &&
    decide (a.alert_type = "server_down"))

/-- Fixture: an active 8-core/32 GB baremetal. -/
def bm8_32 : Baremetal :=
  { id := 1, hostname := "bm1", ip_address := "10.0.0.1", cpu_cores := 8
    memory_gb := 32, status := BMStatus.active, last_health_check := none }

/-- Fixture: a running VM holding 4 cores / 16384 MB on `bm8_32`. -/
def vm4_16 : VM :=
  { id := 1, hostname := "vm1", ip_address := none, baremetal_id := some 1
    image_id := 1, cpu_cores := 4, memory_mb := 16384
    status := VMStatus.running, created_by := 1 }

/-- Fixture: fleet of one active baremetal carrying one running VM, pool
not yet initialised. -/
def c1_state : EngineState :=
  { baremetals := [bm8_32], vms := [vm4_16], images := [{ id := 1, is_active := true }]
    vm_mounts := [], pool := none, alerts := [], notifications := [] }

/-- Fixture: the same fleet before any VM exists. -/
def c2_state0 : EngineState :=
  { baremetals := [bm8_32], vms := [], images := [{ id := 1, is_active := true }]
    vm_mounts := [], pool := none, alerts := [], notifications := [] }

/-- Fixture: an empty fleet (no baremetals at all). -/
def empty_fleet : EngineState :=
  { baremetals := [], vms := [], images := [{ id := 1, is_active := true }]
    vm_mounts := [], pool := none, alerts := [], notifications := [] }

/-- Fixture: the all-zero pool snapshot an empty-fleet recompute writes. -/
def zero_pool : ResourcePool :=
  { total_cpu_cores := 0, total_memory_gb := 0, total_storage_gb := 0
    total_iops := 0, available_cpu_cores := 0, available_memory_gb := 0
    available_storage_gb := 0, available_iops := 0 }

/-- Fixture: the (4 CPU, 16 GB = 16384 MB) creation request of the §8
scenario. -/
def req4_16 : VMCreate :=
  { hostname := "vm-a", ip_address := none, image_id := 1, cpu_cores := 4
    memory_mb := 16384, storage_mounts := [] }

/-! ### Claims -/

/-- C1: the claim says `update_resource_pool` derives used resources from
the VMs whose status is not in {failed, deleting} and floors available at
zero.  The code does not: it hardcodes every `used_*` to `0`, and on any
state with an active baremetal the recompute aborts on the missing
`storage_gb` attribute and rolls back.  At the fixture (one active 8/32
baremetal, one running 4-core/16 GB VM) the code leaves the pool
unwritten, while the recompute worded by the spec yields available
(4 CPU, 16 GB). -/
theorem c1_update_resource_pool_ignores_vm_usage :
    (update_resource_pool c1_state).pool = none ∧
    spec_available_cpu c1_state.baremetals c1_state.vms = 4 ∧
    spec_available_memory_gb c1_state.baremetals c1_state.vms = 16 := by
  refine ⟨rfl, ?_, ?_⟩ <;> rfl

/-- C2: the §8 scenario diverges at its first step.  Starting from the one
8/32 active baremetal with no VMs, every recompute that sees the baremetal
aborts (missing `storage_gb` attribute), so the pool is either never
created — and the first VM creation fails with "Resource pool not
initialized" — or is the stale all-zero snapshot of an earlier empty-fleet
recompute — and the first creation fails with "Insufficient CPU cores
available" instead of succeeding. -/
theorem c2_scenario_first_step_fails :
    create_vm (fun _ => true) (update_resource_pool c2_state0) req4_16 10
        { id := 1, role := "admin" } = Except.error VmErr.poolNotInitialized ∧
    (update_resource_pool empty_fleet).pool = some zero_pool ∧
    create_vm (fun _ => true) { c2_state0 with pool := some zero_pool } req4_16 10
        { id := 1, role := "admin" } = Except.error VmErr.insufficientCpu := by
  exact ⟨rfl, rfl, rfl⟩

/-- C8: after a Ledger recompute every dimension of the pool satisfies
`available ≤ total`: the only snapshot `update_resource_pool` commits has
`available = total - used` with every `used_*` hardcoded to `0`, and an
aborted recompute rolls back, preserving the invariant of the pre-state. -/
theorem c8_recompute_preserves_available_le_total (s : EngineState)
    (h : pool_inv s) : pool_inv (update_resource_pool s) := by
  intro p hp
  unfold update_resource_pool at hp
  dsimp only at hp
  split at hp
  · simp only [Option.some.injEq] at hp
    subst hp
    refine ⟨?_, ?_, ?_, ?_⟩ <;> simp
  · exact h p hp

/-- C8 witness: the recompute on the empty fleet (whose pool row is absent,
so the hypothesis holds vacuously) yields a pool satisfying the
invariant. -/
theorem c8_recompute_preserves_available_le_total_witness :
    pool_inv (update_resource_pool empty_fleet) :=
  c8_recompute_preserves_available_le_total empty_fleet
    (fun _ hp => nomatch hp)

/-- C9: `allocate_vm_storage` fails whenever the request exceeds the
tier's remaining capacity `limit_gb - used_gb` — in particular at
remaining + 1 — and a request of exactly the remaining capacity succeeds
and brings `used_gb` to `limit_gb`. -/
theorem c9_allocate_respects_tier_capacity (t : StorageTierState)
    (vm_id : String) :
    (∀ n : Int, tier_available_gb t < n →
      (allocate_vm_storage t vm_id n).2.1 = false) ∧
    (allocate_vm_storage t vm_id (tier_available_gb t + 1)).2.1 = false ∧
    (allocate_vm_storage t vm_id (tier_available_gb t)).2.1 = true ∧
    (allocate_vm_storage t vm_id (tier_available_gb t)).1.used_gb =
      t.limit_gb := by
  refine ⟨?_, ?_, ?_, ?_⟩
  · intro n hn
    simp [allocate_vm_storage, hn]
  · simp [allocate_vm_storage, tier_available_gb]
  · simp [allocate_vm_storage]
  · simp only [allocate_vm_storage, tier_available_gb]
    rw [if_neg (by omega)]
    dsimp only
    omega

/-- C9 witness: on a tier of limit 1000 GB with 300 GB used, requesting
701 GB (remaining + 1) fails. -/
theorem c9_allocate_respects_tier_capacity_witness :
    tier_available_gb { limit_gb := 1000, used_gb := 300 } < 701 ∧
    (allocate_vm_storage { limit_gb := 1000, used_gb := 300 } "vm1" 701).2.1
      = false :=
  ⟨by decide,
    (c9_allocate_respects_tier_capacity
      { limit_gb := 1000, used_gb := 300 } "vm1").1 701 (by decide)⟩

/-- C10: because `check_vm_health_status` unconditionally returns `true`,
one `check_vm_health` sweep is the identity on the state: no VM ever
moves from `running` to `failed` and no `vm_down` alert is created. -/
theorem c10_vm_health_sweep_is_noop (naid : Nat) (s : EngineState) :
    check_vm_health naid s = s := by
  have halerts : ∀ (n : Nat) (l : List VM), vm_sweep_alerts n l = [] := by
    intro n l
    induction l generalizing n with
    | nil => rfl
    | cons v rest ih => simp [vm_sweep_alerts, check_vm_health_status, ih]
  unfold check_vm_health
  rw [halerts]
  simp [check_vm_health_status]

/-- The pre-pool validations never read the baremetal table: replacing it
leaves `vm_precheck` unchanged. -/
theorem vm_precheck_baremetals (vip : String → Bool) (s : EngineState)
    (req : VMCreate) (bms : List Baremetal) :
    vm_precheck vip { s with baremetals := bms } req = vm_precheck vip s req :=
  rfl

/-- C3: `create_vm` checks the pool's available CPU, then its available
memory, against the request before any baremetal is examined; if either
fails the request is rejected with the corresponding capacity error (the
spec's `InsufficientCapacity`) for **every** content of the baremetal
table, and if both pass but no single active baremetal satisfies the
per-node CPU and memory constraints, the distinct `noSuitableBaremetal`
(`NoEligibleNode`) error results. -/
theorem c3_pool_checked_before_baremetals (vip : String → Bool)
    (s : EngineState) (req : VMCreate) (nid : Nat) (user : UserT)
    (p : ResourcePool)
    (hpre : vm_precheck vip s req = none)
    (hpool : s.pool = some p) :
    (p.available_cpu_cores < req.cpu_cores →
      ∀ bms : List Baremetal,
        create_vm vip { s with baremetals := bms } req nid user =
          Except.error VmErr.insufficientCpu) ∧
    (¬ p.available_cpu_cores < req.cpu_cores →
      1024 * p.available_memory_gb < req.memory_mb →
      ∀ bms : List Baremetal,
        create_vm vip { s with baremetals := bms } req nid user =
          Except.error VmErr.insufficientMemory) ∧
    (¬ p.available_cpu_cores < req.cpu_cores →
      ¬ 1024 * p.available_memory_gb < req.memory_mb →
      s.baremetals.find? (eligible_baremetal req) = none →
      create_vm vip s req nid user = Except.error VmErr.noSuitableBaremetal) ∧
    VmErr.insufficientCpu ≠ VmErr.noSuitableBaremetal ∧
    VmErr.insufficientMemory ≠ VmErr.noSuitableBaremetal := by
  refine ⟨?_, ?_, ?_, by decide, by decide⟩
  · intro hcpu bms
    unfold create_vm
    rw [vm_precheck_baremetals, hpre]
    dsimp only
    rw [show ({ s with baremetals := bms } : EngineState).pool = s.pool from rfl,
       hpool]
    dsimp only
    rw [if_pos hcpu]
  · intro hcpu hmem bms
    unfold create_vm
    rw [vm_precheck_baremetals, hpre]
    dsimp only
    rw [show ({ s with baremetals := bms } : EngineState).pool = s.pool from rfl,
       hpool]
    dsimp only
    rw [if_neg hcpu, if_pos hmem]
  · intro hcpu hmem hfind
    unfold create_vm
    rw [hpre]
    dsimp only
    rw [hpool]
    dsimp only
    rw [if_neg hcpu, if_neg hmem, hfind]

/-- Fixture: a state whose pool advertises zero available CPU while an
active baremetal would individually fit the request. -/
def c3_state : EngineState :=
  { baremetals := [bm8_32], vms := [], images := [{ id := 1, is_active := true }]
    vm_mounts := []
    pool := some
      { total_cpu_cores := 8, total_memory_gb := 32, total_storage_gb := 0
        total_iops := 0, available_cpu_cores := 0, available_memory_gb := 32
        available_storage_gb := 0, available_iops := 0 }
    alerts := [], notifications := [] }

/-- C3 witness: with zero available CPU in the pool, the 4-core request
fails with the capacity error even though the baremetal itself has 8 free
cores. -/
theorem c3_pool_checked_before_baremetals_witness :
    create_vm (fun _ => true) c3_state req4_16 5 { id := 1, role := "admin" } =
      Except.error VmErr.insufficientCpu :=
  (c3_pool_checked_before_baremetals (fun _ => true) c3_state req4_16 5
      { id := 1, role := "admin" }
      { total_cpu_cores := 8, total_memory_gb := 32, total_storage_gb := 0
        total_iops := 0, available_cpu_cores := 0, available_memory_gb := 32
        available_storage_gb := 0, available_iops := 0 }
      rfl rfl).1 (by decide) c3_state.baremetals

/-- Fixture: first-listed baremetal with the larger id (2) and one VM of
load, second-listed with id 1 and no load; both eligible. -/
def c4_bmA : Baremetal :=
  { id := 2, hostname := "bmA", ip_address := "10.0.0.4", cpu_cores := 8
    memory_gb := 32, status := BMStatus.active, last_health_check := none }

/-- Fixture: the lower-id, zero-load baremetal listed second. -/
def c4_bmB : Baremetal :=
  { id := 1, hostname := "bmB", ip_address := "10.0.0.5", cpu_cores := 8
    memory_gb := 32, status := BMStatus.active, last_health_check := none }

/-- Fixture: a running VM on `c4_bmA`, giving it load 1. -/
def c4_vm0 : VM :=
  { id := 3, hostname := "vm-old", ip_address := none, baremetal_id := some 2
    image_id := 1, cpu_cores := 2, memory_mb := 2048
    status := VMStatus.running, created_by := 1 }

/-- Fixture: fleet state for the placement tie-break comparison. -/
def c4_state : EngineState :=
  { baremetals := [c4_bmA, c4_bmB], vms := [c4_vm0]
    images := [{ id := 1, is_active := true }], vm_mounts := []
    pool := some
      { total_cpu_cores := 16, total_memory_gb := 64, total_storage_gb := 0
        total_iops := 0, available_cpu_cores := 14, available_memory_gb := 60
        available_storage_gb := 0, available_iops := 0 }
    alerts := [], notifications := [] }

/-- Fixture: a small (1 CPU, 1024 MB) request both baremetals satisfy. -/
def c4_req : VMCreate :=
  { hostname := "vm-new", ip_address := none, image_id := 1, cpu_cores := 1
    memory_mb := 1024, storage_mounts := [] }

/-- C4 counterexample: with two eligible baremetals, the code places the VM
on the first-listed one (id 2, already loaded with one VM), while the
lowest-load/lowest-id rule the claim states would pick id 1: `create_vm`
performs no load- or id-based ordering. -/
theorem c4_lowest_load_counterexample :
    ((create_vm (fun _ => true) c4_state c4_req 9
        { id := 1, role := "admin" }).toOption.map
          (fun r => r.2.baremetal_id)) = some (some 2) ∧
    spec_select c4_state.baremetals c4_state.vms c4_req = some 1 ∧
    (2 : Nat) ≠ 1 :=
  ⟨rfl, rfl, by decide⟩

/-- C4 amended: `create_vm` filters baremetals to active status with
per-node CPU and memory at least the request, and assigns the **first**
survivor in the stored table order (no load or id ordering); being a
function of the state, the choice is identical for repeated identical
requests against an unchanged fleet state. -/
theorem c4_first_eligible_in_stored_order (vip : String → Bool)
    (s : EngineState) (req : VMCreate) (nid : Nat) (user : UserT)
    (s' : EngineState) (v : VM)
    (h : create_vm vip s req nid user = Except.ok (s', v)) :
    ∃ bm, s.baremetals.find? (eligible_baremetal req) = some bm ∧
      v.baremetal_id = some bm.id := by
  unfold create_vm at h
  cases hpre : vm_precheck vip s req with
  | some e => rw [hpre] at h; cases h
  | none =>
  rw [hpre] at h
  dsimp only at h
  cases hpool : s.pool with
  | none => rw [hpool] at h; cases h
  | some pool =>
  rw [hpool] at h
  dsimp only at h
  by_cases hcpu : pool.available_cpu_cores < req.cpu_cores
  · rw [if_pos hcpu] at h; cases h
  · rw [if_neg hcpu] at h
    by_cases hmem : 1024 * pool.available_memory_gb < req.memory_mb
    · rw [if_pos hmem] at h; cases h
    · rw [if_neg hmem] at h
      cases hfind : s.baremetals.find? (eligible_baremetal req) with
      | none => rw [hfind] at h; cases h
      | some bm =>
        rw [hfind] at h
        dsimp only at h
        simp only [Except.ok.injEq, Prod.mk.injEq] at h
        obtain ⟨-, hv⟩ := h
        subst hv
        exact ⟨bm, rfl, rfl⟩

/-- C4 witness: on the two-baremetal fixture the successful creation is
assigned the head of the eligible list. -/
theorem c4_first_eligible_in_stored_order_witness :
    ∃ bm, c4_state.baremetals.find? (eligible_baremetal c4_req) = some bm ∧
      ({ id := 9, hostname := "vm-new", ip_address := none
         baremetal_id := some 2, image_id := 1, cpu_cores := 1
         memory_mb := 1024, status := VMStatus.creating
         created_by := 1 } : VM).baremetal_id = some bm.id :=
  c4_first_eligible_in_stored_order (fun _ => true) c4_state c4_req 9
    { id := 1, role := "admin" }
    { c4_state with
        vms := c4_state.vms ++
          [{ id := 9, hostname := "vm-new", ip_address := none
             baremetal_id := some 2, image_id := 1, cpu_cores := 1
             memory_mb := 1024, status := VMStatus.creating
             created_by := 1 }]
        vm_mounts := c4_state.vm_mounts ++ [] }
    { id := 9, hostname := "vm-new", ip_address := none
      baremetal_id := some 2, image_id := 1, cpu_cores := 1
      memory_mb := 1024, status := VMStatus.creating, created_by := 1 }
    rfl

/-- Fixture: an active 8-core/32 GB baremetal hosting the VM updated in the
C7 scenario. -/
def c7_bm : Baremetal :=
  { id := 1, hostname := "c7bm", ip_address := "10.0.0.7", cpu_cores := 8
    memory_gb := 32, status := BMStatus.active, last_health_check := none }

/-- Fixture: a running VM of user 7 holding 4 cores / 16384 MB on `c7_bm`. -/
def c7_vm : VM :=
  { id := 5, hostname := "c7vm", ip_address := none, baremetal_id := some 1
    image_id := 1, cpu_cores := 4, memory_mb := 16384
    status := VMStatus.running, created_by := 7 }

/-- Fixture: the fleet state for the update-preserves-bound question. -/
def c7_state : EngineState :=
  { baremetals := [c7_bm], vms := [c7_vm]
    images := [{ id := 1, is_active := true }], vm_mounts := []
    pool := some
      { total_cpu_cores := 8, total_memory_gb := 32, total_storage_gb := 0
        total_iops := 0, available_cpu_cores := 4, available_memory_gb := 16
        available_storage_gb := 0, available_iops := 0 }
    alerts := [], notifications := [] }

/-- Fixture: an update request raising the VM to 100 cores / 64 GB. -/
def c7_upd : VMUpdate :=
  { hostname := none, ip_address := none, cpu_cores := some 100
    memory_mb := some 65536, status := none }

/-- C7 counterexample: the owner updates the VM on the 8-core baremetal to
request 100 cores; `update_vm` commits the change without any check
against the assigned baremetal's totals, so the claimed at-any-time bound
fails (the baremetal reference itself stays `some 1`). -/
theorem c7_update_vm_breaks_bound_counterexample :
    ((update_vm (fun _ => true) c7_state 5 c7_upd
        { id := 7, role := "user" }).toOption.bind
      (fun s' => s'.vms.find? (fun v => decide (v.id = 5)))).map
        (fun v => (v.cpu_cores, v.baremetal_id)) = some (100, some 1) ∧
    c7_bm.cpu_cores = 8 ∧
    ¬ ((100 : Int) ≤ 8) :=
  ⟨rfl, rfl, by decide⟩

/-- C7 amended: the resource bound holds at assignment time — a VM
`create_vm` places is assigned an active baremetal of the fleet whose
totals dominate the request — and the baremetal reference is immutable
under `update_vm` (which has no `baremetal_id` field); but `update_vm`
rewrites `cpu_cores`/`memory_mb` without rechecking the assigned
baremetal, so the bound is not preserved after assignment. -/
theorem c7_bound_at_assignment_and_immutable_ref (vip : String → Bool)
    (s : EngineState) (req : VMCreate) (nid : Nat) (user : UserT)
    (s' : EngineState) (v : VM)
    (h : create_vm vip s req nid user = Except.ok (s', v))
    (vip2 : String → Bool) (s2 : EngineState) (vm_id : Nat) (u : VMUpdate)
    (user2 : UserT) (s2' : EngineState)
    (h2 : update_vm vip2 s2 vm_id u user2 = Except.ok s2') :
    (∃ bm, v.baremetal_id = some bm.id ∧ bm ∈ s.baremetals ∧
      bm.status = BMStatus.active ∧ v.cpu_cores ≤ bm.cpu_cores ∧
      v.memory_mb ≤ 1024 * bm.memory_gb) ∧
    s2'.vms.map (fun w => (w.id, w.baremetal_id)) =
      s2.vms.map (fun w => (w.id, w.baremetal_id)) := by
  constructor
  · unfold create_vm at h
    cases hpre : vm_precheck vip s req with
    | some e => rw [hpre] at h; cases h
    | none =>
    rw [hpre] at h
    dsimp only at h
    cases hpool : s.pool with
    | none => rw [hpool] at h; cases h
    | some pool =>
    rw [hpool] at h
    dsimp only at h
    by_cases hcpu : pool.available_cpu_cores < req.cpu_cores
    · rw [if_pos hcpu] at h; cases h
    · rw [if_neg hcpu] at h
      by_cases hmem : 1024 * pool.available_memory_gb < req.memory_mb
      · rw [if_pos hmem] at h; cases h
      · rw [if_neg hmem] at h
        cases hfind : s.baremetals.find? (eligible_baremetal req) with
        | none => rw [hfind] at h; cases h
        | some bm =>
          rw [hfind] at h
          dsimp only at h
          simp only [Except.ok.injEq, Prod.mk.injEq] at h
          obtain ⟨-, hv⟩ := h
          subst hv
          have helig : eligible_baremetal req bm = true :=
            List.find?_some hfind
          have hmm : bm ∈ s.baremetals := List.mem_of_find?_eq_some hfind
          simp only [eligible_baremetal, Bool.and_eq_true,
            decide_eq_true_eq] at helig
          exact ⟨bm, rfl, hmm, helig.1.1, helig.1.2, helig.2⟩
  · unfold update_vm at h2
    cases hfindv : s2.vms.find? (fun w => decide (w.id = vm_id)) with
    | none => rw [hfindv] at h2; cases h2
    | some vm =>
      rw [hfindv] at h2
      dsimp only at h2
      by_cases hperm : (decide (user2.role ≠ "admin") &&
          decide (vm.created_by ≠ user2.id)) = true
      · rw [if_pos hperm] at h2; cases h2
      · rw [if_neg hperm] at h2
        by_cases hipok : (match u.ip_address with
            | none => true
            | some ip => vip2 ip) = false
        · rw [if_pos hipok] at h2; cases h2
        · rw [if_neg hipok] at h2
          simp only [Except.ok.injEq] at h2
          subst h2
          dsimp only
          rw [List.map_map]
          refine List.map_congr_left ?_
          intro w _
          by_cases hw : decide (w.id = vm_id) = true
          · simp only [Function.comp, if_pos hw]
            rfl
          · simp only [Function.comp, if_neg hw]

/-- Fixture: a fresh small creation request against `c7_state`. -/
def c7_req : VMCreate :=
  { hostname := "c7new", ip_address := none, image_id := 1, cpu_cores := 1
    memory_mb := 1024, storage_mounts := [] }

/-- Fixture: the VM row `create_vm` produces for `c7_req` on `c7_state`. -/
def c7_new_vm : VM :=
  { id := 9, hostname := "c7new", ip_address := none, baremetal_id := some 1
    image_id := 1, cpu_cores := 1, memory_mb := 1024
    status := VMStatus.creating, created_by := 7 }

/-- Fixture: `c7_state` after the 100-core update of `c7_vm`. -/
def c7_update_state : EngineState :=
  { c7_state with vms :=
      [{ id := 5, hostname := "c7vm", ip_address := none
         baremetal_id := some 1, image_id := 1, cpu_cores := 100
         memory_mb := 65536, status := VMStatus.running, created_by := 7 }] }

/-- C7 witness: a concrete placement on `c7_state` satisfies the
assignment-time bound, and a concrete update leaves every
(id, baremetal reference) pair unchanged. -/
theorem c7_bound_at_assignment_and_immutable_ref_witness :
    (∃ bm, c7_new_vm.baremetal_id = some bm.id ∧ bm ∈ c7_state.baremetals ∧
      bm.status = BMStatus.active ∧ c7_new_vm.cpu_cores ≤ bm.cpu_cores ∧
      c7_new_vm.memory_mb ≤ 1024 * bm.memory_gb) ∧
    c7_update_state.vms.map (fun w => (w.id, w.baremetal_id)) =
      c7_state.vms.map (fun w => (w.id, w.baremetal_id)) :=
  c7_bound_at_assignment_and_immutable_ref (fun _ => true) c7_state c7_req 9
    { id := 7, role := "user" }
    { c7_state with
        vms := c7_state.vms ++ [c7_new_vm]
        vm_mounts := c7_state.vm_mounts ++ [] }
    c7_new_vm rfl
    (fun _ => true) c7_state 5 c7_upd { id := 7, role := "user" }
    c7_update_state rfl

/-- `bm_probe_step` never changes a baremetal's id. -/
theorem bm_probe_step_id (healthy : String → Bool) (now : Nat)
    (b : Baremetal) : (bm_probe_step healthy now b).id = b.id := by
  unfold bm_probe_step
  split
  · split <;> rfl
  · rfl

/-- Filtering an id-preserving row-wise map by an id that no listed row
carries yields nothing. -/
theorem filter_id_map_nil (f : Baremetal → Baremetal)
    (hf : ∀ b, (f b).id = b.id) (i : Nat) (l : List Baremetal)
    (h : ∀ b ∈ l, b.id ≠ i) :
    (l.map f).filter (fun b => decide (b.id = i)) = [] := by
  rw [List.filter_eq_nil_iff]
  intro b hb
  obtain ⟨c, hc, rfl⟩ := List.mem_map.mp hb
  simp [hf c, h c hc]

/-- With pairwise-distinct ids, filtering an id-preserving row-wise map by
the id of a listed row yields exactly that row's image. -/
theorem filter_id_map_single (f : Baremetal → Baremetal)
    (hf : ∀ b, (f b).id = b.id) (l : List Baremetal)
    (hnd : (l.map Baremetal.id).Nodup) (bm : Baremetal) (hmem : bm ∈ l) :
    (l.map f).filter (fun b => decide (b.id = bm.id)) = [f bm] := by
  induction l with
  | nil => cases hmem
  | cons a rest ih =>
    rw [List.map_cons, List.nodup_cons] at hnd
    obtain ⟨hna, hnr⟩ := hnd
    rcases List.mem_cons.mp hmem with rfl | hbm
    · rw [List.map_cons, List.filter_cons]
      rw [show decide ((f bm).id = bm.id) = true from by simp [hf]]
      simp only [if_true]
      rw [filter_id_map_nil f hf bm.id rest
        (fun b hb hbid => hna (hbid ▸ List.mem_map_of_mem Baremetal.id hb))]
    · have haid : a.id ≠ bm.id := by
        intro hcontra
        exact hna (hcontra ▸ List.mem_map_of_mem Baremetal.id hbm)
      rw [List.map_cons, List.filter_cons]
      rw [show decide ((f a).id = bm.id) = false from by simp [hf, haid]]
      simp only [Bool.false_eq_true, if_false]
      exact ih hnr hbm

/-- A health sweep whose triggering baremetals all have ids other than `i`
contributes no `server_down` alert for `i`. -/
theorem alerts_for_sweep_nil (healthy : String → Bool) (i : Nat)
    (l : List Baremetal)
    (h : ∀ b ∈ l,
      (decide (b.status = BMStatus.active) && !healthy b.ip_address) = true →
      b.id ≠ i) :
    ∀ n, alerts_for i (bm_sweep_alerts healthy n l) = [] := by
  induction l with
  | nil => intro n; rfl
  | cons a rest ih =>
    intro n
    have hrest : ∀ b ∈ rest,
        (decide (b.status = BMStatus.active) && !healthy b.ip_address) = true →
        b.id ≠ i :=
      fun b hb => h b (List.mem_cons_of_mem a hb)
    unfold bm_sweep_alerts
    by_cases ha :
        (decide (a.status = BMStatus.active) && !healthy a.ip_address) = true
    · rw [if_pos ha]
      unfold alerts_for at ih ⊢
      rw [List.filter_cons]
      rw [show (decide ((server_down_alert n a).resource_type = "baremetal") &&
            decide ((server_down_alert n a).resource_id = i) &&
            decide ((server_down_alert n a).alert_type = "server_down")) = false
          from by simp [server_down_alert, h a (List.mem_cons_self a rest) ha]]
      simp only [Bool.false_eq_true, if_false]
      exact ih hrest (n + 1)
    · rw [if_neg ha]
      exact ih hrest n

/-- With pairwise-distinct ids, a sweep in which the listed baremetal `bm`
is active and probes unhealthy contributes exactly one `server_down` alert
for `bm.id`. -/
theorem alerts_for_sweep_single (healthy : String → Bool)
    (l : List Baremetal) (hnd : (l.map Baremetal.id).Nodup) (bm : Baremetal)
    (hmem : bm ∈ l) (hact : bm.status = BMStatus.active)
    (hh : healthy bm.ip_address = false) :
    ∀ n, ∃ aid,
      alerts_for bm.id (bm_sweep_alerts healthy n l) =
        [server_down_alert aid bm] := by
  induction l with
  | nil => cases hmem
  | cons a rest ih =>
    rw [List.map_cons, List.nodup_cons] at hnd
    obtain ⟨hna, hnr⟩ := hnd
    intro n
    rcases List.mem_cons.mp hmem with rfl | hbm
    · unfold bm_sweep_alerts
      rw [if_pos (by simp [hact, hh])]
      unfold alerts_for
      rw [List.filter_cons]
      rw [show (decide ((server_down_alert n bm).resource_type = "baremetal") &&
            decide ((server_down_alert n bm).resource_id = bm.id) &&
            decide ((server_down_alert n bm).alert_type = "server_down")) = true
          from by simp [server_down_alert]]
      simp only [if_true]
      have := alerts_for_sweep_nil healthy bm.id rest
        (fun b hb _ hbid => hna (hbid ▸ List.mem_map_of_mem Baremetal.id hb))
        (n + 1)
      unfold alerts_for at this
      rw [this]
      exact ⟨n, rfl⟩
    · have haid : a.id ≠ bm.id := by
        intro hcontra
        exact hna (hcontra ▸ List.mem_map_of_mem Baremetal.id hbm)
      unfold bm_sweep_alerts
      by_cases ha :
          (decide (a.status = BMStatus.active) && !healthy a.ip_address) = true
      · rw [if_pos ha]
        obtain ⟨aid, haid2⟩ := ih hnr hbm (n + 1)
        refine ⟨aid, ?_⟩
        unfold alerts_for at haid2 ⊢
        rw [List.filter_cons]
        rw [show (decide ((server_down_alert n a).resource_type = "baremetal") &&
              decide ((server_down_alert n a).resource_id = bm.id) &&
              decide ((server_down_alert n a).alert_type = "server_down")) = false
            from by simp [server_down_alert, haid]]
        simp only [Bool.false_eq_true, if_false]
        exact haid2
      · rw [if_neg ha]
        exact ih hnr hbm n

/-- C5: in a sweep of `check_baremetal_health`, a probe failure for an
active baremetal sets its persisted status to `failed` (its single row in
the table, ids being unique, is exactly the failed copy) and appends
exactly one new unresolved `server_down` alert of severity `critical` for
it; a baremetal already `failed` is outside the sweep's query, so its row
is untouched (in particular never moved back to `active`) and no further
alert is created for it. -/
theorem c5_probe_failure_fails_once_and_alerts_once (healthy : String → Bool)
    (now naid : Nat) (s : EngineState)
    (hids : (s.baremetals.map Baremetal.id).Nodup) (bm : Baremetal)
    (hmem : bm ∈ s.baremetals) :
    (bm.status = BMStatus.active → healthy bm.ip_address = false →
      ((check_baremetal_health healthy now naid s).baremetals.filter
          (fun b => decide (b.id = bm.id)) =
        [{ bm with status := BMStatus.failed }] ∧
       ∃ aid,
        alerts_for bm.id (check_baremetal_health healthy now naid s).alerts =
          alerts_for bm.id s.alerts ++ [server_down_alert aid bm] ∧
        (server_down_alert aid bm).severity = "critical" ∧
        (server_down_alert aid bm).is_resolved = false)) ∧
    (bm.status = BMStatus.failed →
      ((check_baremetal_health healthy now naid s).baremetals.filter
          (fun b => decide (b.id = bm.id)) = [bm] ∧
       alerts_for bm.id (check_baremetal_health healthy now naid s).alerts =
         alerts_for bm.id s.alerts)) := by
  constructor
  · intro hact hh
    constructor
    · dsimp only [check_baremetal_health]
      rw [filter_id_map_single (bm_probe_step healthy now)
        (bm_probe_step_id healthy now) s.baremetals hids bm hmem]
      simp [bm_probe_step, hact, hh]
    · obtain ⟨aid, ha⟩ :=
        alerts_for_sweep_single healthy s.baremetals hids bm hmem hact hh naid
      refine ⟨aid, ?_, rfl, rfl⟩
      dsimp only [check_baremetal_health]
      unfold alerts_for at ha ⊢
      rw [List.filter_append, ha]
  · intro hfail
    constructor
    · dsimp only [check_baremetal_health]
      rw [filter_id_map_single (bm_probe_step healthy now)
        (bm_probe_step_id healthy now) s.baremetals hids bm hmem]
      simp [bm_probe_step, hfail]
    · have hz := alerts_for_sweep_nil healthy bm.id s.baremetals
        (fun b hb htrig hbid => by
          have hbbm : b = bm := List.inj_on_of_nodup_map hids hb hmem hbid
          subst hbbm
          rw [hfail] at htrig
          simp at htrig) naid
      dsimp only [check_baremetal_health]
      unfold alerts_for at hz ⊢
      rw [List.filter_append, hz, List.append_nil]

/-- Fixture: an active baremetal about to fail its probe. -/
def c5_bm : Baremetal :=
  { id := 1, hostname := "c5bm", ip_address := "10.0.0.9", cpu_cores := 4
    memory_gb := 8, status := BMStatus.active, last_health_check := none }

/-- Fixture: a baremetal that already failed in an earlier sweep. -/
def c5_bm2 : Baremetal :=
  { id := 2, hostname := "c5bm2", ip_address := "10.0.0.10", cpu_cores := 4
    memory_gb := 8, status := BMStatus.failed, last_health_check := none }

/-- Fixture: the two-baremetal fleet probed in the C5 witness. -/
def c5_state : EngineState :=
  { baremetals := [c5_bm, c5_bm2], vms := [], images := [], vm_mounts := []
    pool := none, alerts := [], notifications := [] }

/-- C5 witness: with an all-unhealthy probe, the active baremetal's row
becomes the failed copy and exactly one critical unresolved alert is
appended for it. -/
theorem c5_probe_failure_fails_once_and_alerts_once_witness :
    ((check_baremetal_health (fun _ => false) 3 7 c5_state).baremetals.filter
        (fun b => decide (b.id = c5_bm.id)) =
      [{ c5_bm with status := BMStatus.failed }]) ∧
    ∃ aid,
      alerts_for c5_bm.id
          (check_baremetal_health (fun _ => false) 3 7 c5_state).alerts =
        alerts_for c5_bm.id c5_state.alerts ++ [server_down_alert aid c5_bm] ∧
      (server_down_alert aid c5_bm).severity = "critical" ∧
      (server_down_alert aid c5_bm).is_resolved = false :=
  (c5_probe_failure_fails_once_and_alerts_once (fun _ => false) 3 7 c5_state
    (by decide) c5_bm (by decide)).1 rfl rfl

/-- Fixture: the alert dispatched in the C6 scenario. -/
def c6_alert : Alert :=
  { id := 4, resource_type := "baremetal", resource_id := 1
    alert_type := "server_down", severity := "critical"
    message := "down", is_resolved := false }

/-- Fixture: a state holding only `c6_alert`. -/
def c6_state : EngineState :=
  { baremetals := [], vms := [], images := [], vm_mounts := []
    pool := none, alerts := [c6_alert], notifications := [] }

/-- Fixture: both channels configured. -/
def c6_cfg : ChannelConfig :=
  { slack_webhook_url := some "https://hooks.example/slack"
    jira_url := some "https://jira.example"
    jira_username := some "bot"
    jira_api_token := some "tok" }

/-- Fixture: the failing send's HTTP body in the C6 scenario. -/
def c6_body : String := "boom"

/-- C6: the claim says the succeeding channel's row finalises to `sent`
and the failing one to `failed`.  The code cannot commit a `sent` row:
after setting `status = 'sent'` each task evaluates
`db.query(func.now()).scalar()` with `func` unimported, the raised
`NameError` lands in the `except` clause, and the row is committed as
`failed` carrying the `NameError` text.  At the claimed scenario (Slack
HTTP 200, JIRA HTTP 500) both rows are committed `failed` — and in
general every committed notification row has status `failed`. -/
theorem c6_sent_row_never_committed :
    (send_alert_notification c6_cfg c6_state 4 SendOutcome.ok
        (SendOutcome.httpErr 500 c6_body)).notifications =
      c6_state.notifications ++
        [finalize_row (pending_row c6_alert "slack") SendOutcome.ok,
         finalize_row (pending_row c6_alert "jira")
           (SendOutcome.httpErr 500 c6_body)] ∧
    (finalize_row (pending_row c6_alert "slack") SendOutcome.ok).status =
      "failed" ∧
    (finalize_row (pending_row c6_alert "slack")
        SendOutcome.ok).error_message = some func_name_error_msg ∧
    (finalize_row (pending_row c6_alert "jira")
        (SendOutcome.httpErr 500 c6_body)).status = "failed" ∧
    (∀ (r : Notification) (o : SendOutcome),
      (finalize_row r o).status = "failed") :=
  ⟨rfl, rfl, rfl, rfl, fun _ o => by cases o <;> rfl⟩

end ODPDC
